import Mathlib

/-!
Shallow embedding of the media-scanner workflow state machine
(`src/examples/workflow-media-scanner/src/mediaScannerMachine.ts`).

The machine configuration (states, the `on` event edges, the `invoke`
`onDone`/`onError` edges and their `assign` actions, the initial context)
is translated directly from the source file.  The statechart runtime that
interprets the configuration lives elsewhere in the repository, so its
dispatch rules (an event without a matching edge in the current state is
ignored; transition `assign` actions run before the target state's entry
actions; the `emailErrors` entry action notifies the error collaborator
with `context.dirsToReport`) are modelled from the specification.
-/

namespace MediaScanner

/-- The typed workflow context, from the `context` type declaration of the
machine (source lines 17–27). -/
structure Context where
  basePath : String
  destinationPath : String
  directoriesToCheck : List String
  dirsToEvaluate : List String
  dirsToMove : List String
  filesToEmail : List String
  dirsToReport : List String
  processedFiles : List String
  acceptedFileTypes : List String
  deriving DecidableEq, Repr

/-- The six states of the machine, exactly those declared under `states`
(source lines 54–186). -/
inductive State where
  | idle
  | Scanning
  | CheckingFilePermissions
  | EvaluatingFiles
  | MovingFiles
  | ReportingErrors
  deriving DecidableEq, Repr

/-- The two external events of the machine (source line 16). -/
inductive Event where
  | START_SCAN
  | RESTART
  deriving DecidableEq, Repr

/-- Settlement of the asynchronous operation invoked by a state: each
invoking state's promise either resolves (`Done`, carrying the payload the
machine consumes) or rejects (`Error`, carrying the payload the machine
consumes, if any). -/
inductive EffectResult where
  | scanDone (output : List String)
  | scanError
  | checkDone (dirsToEvaluate : List String) (dirsToReport : List String)
  | checkError (dirsToReport : List String)
  | evalDone (dirsToMove : List String)
  | evalError
  | moveDone
  | moveError
  deriving DecidableEq, Repr

/-- Result of one machine step: the next state, the next context, and the
list of notify-errors collaborator invocations performed during the step,
each recorded with its `dirsToReport` argument. -/
structure StepOut where
  state : State
  context : Context
  notifications : List (List String)
  deriving DecidableEq, Repr

/-- The initial context built from the machine's `context` factory
(source lines 29–51). -/
def initialContext (basePath destinationPath : String) : Context :=
  { basePath := basePath
    destinationPath := destinationPath
    directoriesToCheck := []
    dirsToEvaluate := []
    dirsToMove := []
    filesToEmail := []
    dirsToReport := []
    processedFiles := []
    acceptedFileTypes :=
      ["mp4", "mkv", "avi", "mov", "m4v", "mpg", "mpeg", "wmv", "flv",
       "ts", "mts"] }

/-- Whether a state's transition table declares an edge for an event:
`idle` declares `START_SCAN` (source lines 55–61) and `ReportingErrors`
declares `RESTART` (source lines 130–134); no other state declares any
event edge. -/
def handles : State → Event → Bool
  | State.idle, Event.START_SCAN => true
  | State.ReportingErrors, Event.RESTART => true
  | _, _ => false

/-- Modelled from the spec: entry actions of a state.  `ReportingErrors`
declares the `emailErrors` entry action (source lines 127–129), which the
specification describes as invoking the notify-errors collaborator with
`context.dirsToReport`; the implementation of that collaborator action is
not under `src`.  No other state declares an entry action. -/
def entryNotifications (s : State) (c : Context) : List (List String) :=
  match s with
  | State.ReportingErrors => [c.dirsToReport]
  | _ => []

/-- Deliver an external event to the machine.  Modelled from the spec for
the dispatch rule ("Events delivered while not applicable are ignored (no
error)"); the two declared edges are from the source: `idle` on
`START_SCAN` targets `Scanning` (lines 57–59) and `ReportingErrors` on
`RESTART` targets `idle` (lines 131–133), neither with actions. -/
def sendEvent (s : State) (c : Context) (e : Event) : StepOut :=
  match s, e with
  | State.idle, Event.START_SCAN =>
      ⟨State.Scanning, c, entryNotifications State.Scanning c⟩
  | State.ReportingErrors, Event.RESTART =>
      ⟨State.idle, c, entryNotifications State.idle c⟩
  | s, _ => ⟨s, c, []⟩

/-- Settle the asynchronous operation invoked by the current state,
following the `onDone`/`onError` edges and their `assign` actions from the
source; the target state's entry notifications (run after the transition's
`assign`, per the spec's dispatch rule) are recorded.  Returns `none` when
the state declares no edge for the settlement — in particular
`EvaluatingFiles` declares no `onError` edge (source lines 137–161). -/
def settle (s : State) (c : Context) (r : EffectResult) : Option StepOut :=
  match s, r with
  | State.Scanning, EffectResult.scanDone output =>
      let c' := { c with directoriesToCheck := output }
      some ⟨State.CheckingFilePermissions, c',
        entryNotifications State.CheckingFilePermissions c'⟩
  | State.Scanning, EffectResult.scanError =>
      some ⟨State.ReportingErrors, c,
        entryNotifications State.ReportingErrors c⟩
  | State.CheckingFilePermissions, EffectResult.checkDone de dr =>
      let c' := { c with dirsToEvaluate := de, dirsToReport := dr }
      some ⟨State.EvaluatingFiles, c',
        entryNotifications State.EvaluatingFiles c'⟩
  | State.CheckingFilePermissions, EffectResult.checkError dr =>
      let c' := { c with dirsToReport := dr }
      some ⟨State.ReportingErrors, c',
        entryNotifications State.ReportingErrors c'⟩
  | State.EvaluatingFiles, EffectResult.evalDone dm =>
      let c' := { c with dirsToMove := dm }
      some ⟨State.MovingFiles, c',
        entryNotifications State.MovingFiles c'⟩
  | State.MovingFiles, EffectResult.moveDone =>
      some ⟨State.idle, c, entryNotifications State.idle c⟩
  | State.MovingFiles, EffectResult.moveError =>
      some ⟨State.ReportingErrors, c,
        entryNotifications State.ReportingErrors c⟩
  | _, _ => none

/-- One step of the machine: either an external event is delivered, or the
current state's invoked operation settles along a declared edge. -/
inductive MStep : State × Context → State × Context → Prop where
  | ev (s : State) (c : Context) (e : Event) :
      MStep (s, c) ((sendEvent s c e).state, (sendEvent s c e).context)
  | fx (s : State) (c : Context) (r : EffectResult) (o : StepOut)
      (h : settle s c r = some o) : MStep (s, c) (o.state, o.context)

/-- A configuration is reachable when some sequence of steps leads to it
from the initial configuration (`idle` with the initial context). -/
def Reachable (basePath destinationPath : String)
    (p : State × Context) : Prop :=
  Relation.ReflTransGen MStep
    (State.idle, initialContext basePath destinationPath) p

/-- C1: for every reachable configuration of the machine, delivering an
event that the current state's transition table does not handle leaves the
state and the entire context unchanged and performs no action (the event
is ignored, no error is raised). -/
theorem ignored_event_noop (bp dp : String) (s : State) (c : Context)
    (e : Event) (_hreach : Reachable bp dp (s, c))
    (h : handles s e = false) :
    sendEvent s c e = ⟨s, c, []⟩ := by
  cases s <;> cases e <;> simp_all [handles, sendEvent, entryNotifications]

/-- Witness for C1 at a concrete reachable configuration: `RESTART` in the
initial `idle` configuration is a no-op. -/
theorem ignored_event_noop_witness :
    handles State.idle Event.RESTART = false ∧
    sendEvent State.idle (initialContext "lib" "dest") Event.RESTART
      = ⟨State.idle, initialContext "lib" "dest", []⟩ :=
  ⟨rfl, ignored_event_noop "lib" "dest" State.idle
    (initialContext "lib" "dest") Event.RESTART
    Relation.ReflTransGen.refl rfl⟩

/-- C2: the notify-errors collaborator is invoked exactly once per entry
into `ReportingErrors`, with the context's `dirsToReport` (after the
transition's `assign`) as its argument, and at no other point: event
delivery never notifies, and an effect settlement notifies exactly when
its target state is `ReportingErrors`. -/
theorem notify_errors_exactly_on_entry (s : State) (c : Context) :
    (∀ e : Event, (sendEvent s c e).notifications = []) ∧
    (∀ (r : EffectResult) (o : StepOut), settle s c r = some o →
      o.notifications =
        if o.state = State.ReportingErrors then [o.context.dirsToReport]
        else []) := by
  constructor
  · intro e
    cases s <;> cases e <;> rfl
  · intro r o h
    cases s <;> cases r <;> simp_all [settle, entryNotifications] <;>
      subst h <;> rfl

/-- Witness for C2: applying the law to the settlement of a failed scan,
which enters `ReportingErrors` and notifies once with the (empty) initial
`dirsToReport`. -/
theorem notify_errors_exactly_on_entry_witness :
    (⟨State.ReportingErrors, initialContext "a" "b", [[]]⟩
        : StepOut).notifications =
      if (⟨State.ReportingErrors, initialContext "a" "b", [[]]⟩
            : StepOut).state = State.ReportingErrors
      then [(⟨State.ReportingErrors, initialContext "a" "b", [[]]⟩
              : StepOut).context.dirsToReport]
      else [] :=
  (notify_errors_exactly_on_entry State.Scanning
      (initialContext "a" "b")).2 EffectResult.scanError
    ⟨State.ReportingErrors, initialContext "a" "b", [[]]⟩ rfl

/-- C3: if `checkFilePermissions` rejects with payload
`{dirsToReport := R}`, the machine moves from `CheckingFilePermissions` to
`ReportingErrors` and sets `dirsToReport := R`, changing no other context
field. -/
theorem checkFilePermissions_onError (c : Context) (R : List String) :
    settle State.CheckingFilePermissions c (EffectResult.checkError R) =
      some ⟨State.ReportingErrors, { c with dirsToReport := R }, [R]⟩ :=
  rfl

/-- C4: if `scanDirectories` rejects, the machine moves from `Scanning` to
`ReportingErrors` with the entire context — in particular `dirsToReport` —
unchanged. -/
theorem scanDirectories_onError (c : Context) :
    settle State.Scanning c EffectResult.scanError =
      some ⟨State.ReportingErrors, c, [c.dirsToReport]⟩ :=
  rfl

/-- C5: for every list `L` (the empty list included) with which
`scanDirectories` resolves, the machine moves from `Scanning` to
`CheckingFilePermissions` with `directoriesToCheck := L` and every other
context field unchanged. -/
theorem scanDirectories_onDone (c : Context) (L : List String) :
    settle State.Scanning c (EffectResult.scanDone L) =
      some ⟨State.CheckingFilePermissions,
        { c with directoriesToCheck := L }, []⟩ :=
  rfl

/-- C6: if `checkFilePermissions` resolves with
`{dirsToEvaluate := E, dirsToReport := R}`, the machine moves from
`CheckingFilePermissions` to `EvaluatingFiles` with both fields taken from
the success result and every other field unchanged. -/
theorem checkFilePermissions_onDone (c : Context) (E R : List String) :
    settle State.CheckingFilePermissions c (EffectResult.checkDone E R) =
      some ⟨State.EvaluatingFiles,
        { c with dirsToEvaluate := E, dirsToReport := R }, []⟩ :=
  rfl

/-- C7: in `EvaluatingFiles`, a resolution of `evaluateFiles` with
`{dirsToMove := M}` moves the machine to `MovingFiles` with
`dirsToMove := M`, while a rejection of `evaluateFiles` matches no
declared edge at all: no transition and no context update is driven by an
evaluation failure. -/
theorem evaluatingFiles_edges (c : Context) (M : List String) :
    settle State.EvaluatingFiles c (EffectResult.evalDone M) =
      some ⟨State.MovingFiles, { c with dirsToMove := M }, []⟩ ∧
    settle State.EvaluatingFiles c EffectResult.evalError = none :=
  ⟨rfl, rfl⟩

/-- C8: in `MovingFiles`, a resolution of `moveFiles` moves the machine to
`idle` and a rejection moves it to `ReportingErrors`; in both cases the
context is unchanged (neither payload is consumed). -/
theorem movingFiles_edges (c : Context) :
    settle State.MovingFiles c EffectResult.moveDone =
      some ⟨State.idle, c, []⟩ ∧
    settle State.MovingFiles c EffectResult.moveError =
      some ⟨State.ReportingErrors, c, [c.dirsToReport]⟩ :=
  ⟨rfl, rfl⟩

/-- C9: from `ReportingErrors`, `RESTART` always moves the machine to
`idle` with every context field — `dirsToReport` included — keeping its
value, and a subsequent `START_SCAN` starts a fresh cycle over that same
stale context. -/
theorem restart_preserves_context (c : Context) :
    sendEvent State.ReportingErrors c Event.RESTART =
      ⟨State.idle, c, []⟩ ∧
    sendEvent (sendEvent State.ReportingErrors c Event.RESTART).state
      (sendEvent State.ReportingErrors c Event.RESTART).context
      Event.START_SCAN = ⟨State.Scanning, c, []⟩ :=
  ⟨rfl, rfl⟩

/-- The behaviour of the all-success cycle started from `idle` with
context `c`: the scan resolves with `L`, the permission check resolves
with `{dirsToEvaluate := E, dirsToReport := R}`, evaluation resolves with
`{dirsToMove := M}` and the move resolves; no intermediate state is
`ReportingErrors`, no step notifies, and the cycle ends in `idle` with
`dirsToReport = R`. -/
def SuccessCycleUnreported (c : Context) (L E R M : List String) : Prop :=
  ∃ o1 o2 o3 o4 o5 : StepOut,
    sendEvent State.idle c Event.START_SCAN = o1 ∧
    settle o1.state o1.context (EffectResult.scanDone L) = some o2 ∧
    settle o2.state o2.context (EffectResult.checkDone E R) = some o3 ∧
    settle o3.state o3.context (EffectResult.evalDone M) = some o4 ∧
    settle o4.state o4.context EffectResult.moveDone = some o5 ∧
    o1.state ≠ State.ReportingErrors ∧ o2.state ≠ State.ReportingErrors ∧
    o3.state ≠ State.ReportingErrors ∧ o4.state ≠ State.ReportingErrors ∧
    o5.state = State.idle ∧
    o1.notifications = [] ∧ o2.notifications = [] ∧
    o3.notifications = [] ∧ o4.notifications = [] ∧
    o5.notifications = [] ∧
    o5.context.dirsToReport = R

/-- C10: along any cycle in which `checkFilePermissions` resolves with a
non-empty `dirsToReport` and both `evaluateFiles` and `moveFiles` resolve,
the machine never enters `ReportingErrors` and the error-notification
entry action never runs: the recorded permission failures are carried back
to `idle` unreported. -/
theorem success_cycle_unreported (c : Context) (L E R M : List String)
    (hR : R ≠ []) :
    SuccessCycleUnreported c L E R M ∧ R ≠ [] := by
  refine ⟨⟨⟨State.Scanning, c, []⟩,
    ⟨State.CheckingFilePermissions,
      { c with directoriesToCheck := L }, []⟩,
    ⟨State.EvaluatingFiles,
      { c with directoriesToCheck := L, dirsToEvaluate := E,
               dirsToReport := R }, []⟩,
    ⟨State.MovingFiles,
      { c with directoriesToCheck := L, dirsToEvaluate := E,
               dirsToReport := R, dirsToMove := M }, []⟩,
    ⟨State.idle,
      { c with directoriesToCheck := L, dirsToEvaluate := E,
               dirsToReport := R, dirsToMove := M }, []⟩,
    rfl, rfl, rfl, rfl, rfl, ?_, ?_, ?_, ?_, rfl, rfl, rfl, rfl, rfl,
    rfl, rfl⟩, hR⟩ <;> simp

/-- Witness for C10 at a concrete non-empty `dirsToReport`. -/
theorem success_cycle_unreported_witness :
    SuccessCycleUnreported (initialContext "a" "b")
      ["A"] ["A"] ["B"] ["m"] ∧ (["B"] : List String) ≠ [] :=
  success_cycle_unreported (initialContext "a" "b")
    ["A"] ["A"] ["B"] ["m"] (by decide)

end MediaScanner
